import Mathlib

deriving instance DecidableEq for Except

/-
Shallow embedding of the server-action layer of the dashboard repository:
`src/app/lib/action.ts` (authenticate, register, createInvoice, updateInvoice,
deleteInvoice) and the `authorized` callback of `src/auth.config.ts`.

Modelling conventions:
- JavaScript numbers that hold validated decimal amounts are embedded as `ℚ`
  (the spec speaks of decimal amounts; exact arithmetic, not IEEE floats).
- `FormData.get` returns `null` for a missing field; a form field is therefore
  an `Option String`.  The `amount` field is embedded after the JS `Number()`
  coercion performed by `z.coerce.number()`: `Option ℚ`, where `none` stands
  for a coercion that produced `NaN`.
- The SQL store is an explicit value (a list of rows); each statement of the
  source is embedded by its effect on that list.  A statement that can fail is
  driven by an explicit failure flag, since the store is an external
  collaborator.  The unique-email constraint of the `users` table surfaces, as
  in Postgres, as a thrown error whose `code` is `"23505"`.
- A thrown JavaScript error is embedded as `JsError`, carrying the two things
  the source inspects: an optional `code` property and whether
  `isRedirectError` holds for it.
- Effects are made explicit in the result of every action: the final store,
  the list of paths passed to `revalidatePath`, and how the action ended
  (returned a value, threw a redirect signal, or threw an exception).
-/

/-- The invoice status enum of `z.enum([pending, paid])`. -/
inductive Status where
  | pending
  | paid
deriving DecidableEq

/-- The string stored in the `status` column for a validated status. -/
def statusStr : Status → String
  | .pending => "pending"
  | .paid => "paid"

/-- Raw invoice form fields as read by `formData.get`, with the `amount`
field taken after the JS `Number()` coercion (`none` = NaN). -/
structure InvoiceForm where
  customerId : Option String
  amount : Option ℚ
  status : Option String
deriving DecidableEq

/-- Field-keyed validation messages, the shape of
`validatedFields.error.flatten().fieldErrors` for the invoice schema. -/
structure InvoiceFieldErrors where
  customerId : List String
  amount : List String
  status : List String
deriving DecidableEq

/-- The typed data produced by a successful invoice-schema parse. -/
structure ValidInvoiceFields where
  customerId : String
  amount : ℚ
  status : Status
deriving DecidableEq

/-- Validation of the customerId field, `z.string` with an invalid-type
message: a missing field (null) is an invalid type; any string passes. -/
def checkCustomerId : Option String → Except (List String) String
  | none => .error ["Please select a customer."]
  | some s => .ok s

/-- Validation of the amount field, `z.coerce.number().gt(0)` with a custom
message: a NaN coercion is an invalid type; otherwise the number must be
strictly greater than 0. -/
def checkAmount : Option ℚ → Except (List String) ℚ
  | none => .error ["Expected number, received nan"]
  | some a => if 0 < a then .ok a else .error ["Please enter an amount greater than $0."]

/-- Validation of the status field, `z.enum([pending, paid])` with an
invalid-type message. -/
def checkStatus : Option String → Except (List String) Status
  | some "pending" => .ok .pending
  | some "paid" => .ok .paid
  | _ => .error ["Please select an invoice status."]

/-- The error list of a field check (empty when the field passed). -/
def errsOf {α : Type} : Except (List String) α → List String
  | .error e => e
  | .ok _ => []

/-- Validation by `CreateInvoice.safeParse` / `UpdateInvoice.parse` (the two
schemas are identical: `FormSchema.omit` of id and date).  A zod object parse
checks every field and accumulates all field errors. -/
def invoiceSafeParse (f : InvoiceForm) : Except InvoiceFieldErrors ValidInvoiceFields :=
  match checkCustomerId f.customerId, checkAmount f.amount, checkStatus f.status with
  | .ok c, .ok a, .ok s => .ok ⟨c, a, s⟩
  | rc, ra, rs => .error ⟨errsOf rc, errsOf ra, errsOf rs⟩

/-- One row of the `invoices` table: `invoices(id, customer_id, amount, status, date)`. -/
structure InvoiceRow where
  id : String
  customer_id : String
  amount : ℚ
  status : String
  date : String
deriving DecidableEq

/-- How an invoice action ended: returned a `State` value (optional field
errors plus optional message), threw a redirect signal via `redirect(path)`,
or threw a validation exception (the `ZodError` of a failed `parse`). -/
inductive InvoiceActionEnd where
  | returned (errors : Option InvoiceFieldErrors) (message : Option String)
  | redirected (path : String)
  | threw (errors : InvoiceFieldErrors)
deriving DecidableEq

/-- Result of running an invoice action: the final `invoices` table, the paths
passed to `revalidatePath`, and how the action ended. -/
structure RunResult where
  db : List InvoiceRow
  revalidated : List String
  outcome : InvoiceActionEnd
deriving DecidableEq

/-- The `createInvoice` action of `src/app/lib/action.ts`.  `today` is the
value of `new Date().toISOString().split(T)[0]`, `newId` the row id generated
by the store, and `insertFails` whether the INSERT statement throws. -/
def createInvoice (today newId : String) (insertFails : Bool)
    (db : List InvoiceRow) (f : InvoiceForm) : RunResult :=
  match invoiceSafeParse f with
  | .error errs =>
      ⟨db, [], .returned (some errs) (some "Missing Fields. Failed to Create Invoice.")⟩
  | .ok v =>
      let amountInCents := v.amount * 100
      let date := today
      if insertFails then
        ⟨db, [], .returned none (some "Database Error: Failed to Create Invoice.")⟩
      else
        ⟨db ++ [⟨newId, v.customerId, amountInCents, statusStr v.status, date⟩],
         ["/dashboard/invoices"], .redirected "/dashboard/invoices"⟩

/-- The `updateInvoice` action of `src/app/lib/action.ts`.  The source calls
`UpdateInvoice.parse` (not `safeParse`) with no surrounding try/catch for it,
so a validation failure throws a `ZodError` out of the action.  `updateFails`
is whether the UPDATE statement throws. -/
def updateInvoice (updateFails : Bool) (db : List InvoiceRow)
    (id : String) (f : InvoiceForm) : RunResult :=
  match invoiceSafeParse f with
  | .error errs => ⟨db, [], .threw errs⟩
  | .ok v =>
      let amountInCents := v.amount * 100
      if updateFails then
        ⟨db, [], .returned none (some "Database Error: Failed to Update Invoice.")⟩
      else
        ⟨db.map (fun r =>
            if r.id = id then
              { r with customer_id := v.customerId, amount := amountInCents,
                       status := statusStr v.status }
            else r),
         ["/dashboard/invoices"], .redirected "/dashboard/invoices"⟩

/-- The `deleteInvoice` action of `src/app/lib/action.ts`.  `deleteFails` is
whether the DELETE statement throws. -/
def deleteInvoice (deleteFails : Bool) (db : List InvoiceRow) (id : String) : RunResult :=
  if deleteFails then
    ⟨db, [], .returned none (some "Database Error: Failed to Delete Invoice.")⟩
  else
    ⟨db.filter (fun r => r.id ≠ id), ["/dashboard/invoices"],
     .returned none (some "Deleted Invoice.")⟩

/-- What the source inspects on a thrown JavaScript error: its optional
`code` property, and whether `isRedirectError` holds for it. -/
structure JsError where
  code : Option String
  redirectSignal : Bool
deriving DecidableEq

/-- Raw registration form fields as read by `formData.get`. -/
structure RegisterForm where
  email : Option String
  name : Option String
  password : Option String
  confirmPassword : Option String
deriving DecidableEq

/-- Field-keyed validation messages for the registration schema. -/
structure RegisterErrors where
  email : List String
  name : List String
  password : List String
  confirmPassword : List String
deriving DecidableEq

/-- The typed data produced by a successful registration parse. -/
structure ValidRegisterFields where
  email : String
  name : String
  password : String
  confirmPassword : String
deriving DecidableEq

/-- Validation of the email field, `z.string().email()`.  The email
well-formedness regex of zod is a library detail; it is kept abstract as the
predicate `emailValid`. -/
def checkEmail (emailValid : String → Bool) : Option String → Except (List String) String
  | none => .error ["Required"]
  | some s => if emailValid s then .ok s else .error ["Invalid email"]

/-- Validation of the name field, `z.string().min(1)`. -/
def checkName : Option String → Except (List String) String
  | none => .error ["Required"]
  | some s =>
      if 1 ≤ s.length then .ok s
      else .error ["String must contain at least 1 character(s)"]

/-- Validation of the password field, `z.string().min(6)` (also used for
the confirmPassword field). -/
def checkPassword : Option String → Except (List String) String
  | none => .error ["Required"]
  | some s =>
      if 6 ≤ s.length then .ok s
      else .error ["String must contain at least 6 character(s)"]

/-- Validation by `FullRegisterSchema.safeParse`: the base object schema checks every field
and accumulates all field errors; the `.refine` comparing `confirmPassword`
with `password` runs only when the base parse succeeded (zod refinements are
skipped when the base schema fails), and attaches its message to the
`confirmPassword` path. -/
def fullRegisterSafeParse (emailValid : String → Bool) (f : RegisterForm) :
    Except RegisterErrors ValidRegisterFields :=
  match checkEmail emailValid f.email, checkName f.name,
        checkPassword f.password, checkPassword f.confirmPassword with
  | .ok e, .ok n, .ok p, .ok c =>
      if c = p then .ok ⟨e, n, p, c⟩
      else .error ⟨[], [], [], ["Password does not match"]⟩
  | re, rn, rp, rc => .error ⟨errsOf re, errsOf rn, errsOf rp, errsOf rc⟩

/-- One row of the `users` table: `users(id, email UNIQUE, password, name)`;
the generated id is left out, `password` holds the bcrypt hash. -/
structure UserRow where
  email : String
  password : String
  name : String
deriving DecidableEq

/-- The `createUser` helper: `INSERT INTO users (email, password, name)`.
The store is an external collaborator: `storeError` makes the statement throw
a given error; otherwise the UNIQUE constraint on `email` makes a duplicate
insert throw the Postgres unique-violation error (code `"23505"`), and a
fresh insert appends the row and reports `rowCount = 1`. -/
def createUser (storeError : Option JsError) (db : List UserRow) (u : UserRow) :
    Except JsError (List UserRow × Nat) :=
  match storeError with
  | some e => .error e
  | none =>
      if db.any (fun r => r.email = u.email) then
        .error ⟨some "23505", false⟩
      else
        .ok (db ++ [u], 1)

/-- How `register` ended: returned a `RegisterState` value, threw a redirect
signal, or returned `undefined` (fell off the end of the try block). -/
inductive RegisterEnd where
  | value (errors : Option RegisterErrors) (message : Option String)
  | redirected (path : String)
  | undef
deriving DecidableEq

/-- The catch block of `register`: first the test of `error.code` against
23505, then `isRedirectError(error)` (which triggers a redirect to
/dashboard), else the generic failure message. -/
def registerCatch (db : List UserRow) (e : JsError) : List UserRow × RegisterEnd :=
  if e.code = some "23505" then
    (db, .value none (some "Email already exists. Please sign in."))
  else if e.redirectSignal then
    (db, .redirected "/dashboard")
  else
    (db, .value none (some "Something went wrong, please try again."))

/-- The `register` action of `src/app/lib/action.ts`.  `hash` abstracts
`bcrypt.hash(password, 10)`; `storeError` drives a failing INSERT;
`signInThrows` is the error thrown by the post-insert `signIn` call
(`none` = it returned normally). -/
def register (emailValid : String → Bool) (hash : String → String)
    (storeError : Option JsError) (signInThrows : Option JsError)
    (db : List UserRow) (f : RegisterForm) : List UserRow × RegisterEnd :=
  match fullRegisterSafeParse emailValid f with
  | .error errs =>
      (db, .value (some errs) (some "Missing Fields. Failed to Create User, please try again."))
  | .ok v =>
      let hashedPassword := hash v.password
      match createUser storeError db ⟨v.email, hashedPassword, v.name⟩ with
      | .error e => registerCatch db e
      | .ok (db2, rowCount) =>
          if rowCount ≠ 1 then
            (db2, .value none (some "Database error. Failed to create user."))
          else
            match signInThrows with
            | some e => registerCatch db2 e
            | none => (db2, .undef)

/-- What the `signIn` call in `authenticate` does:
succeeds (establishing a session; with or without throwing the framework
redirect), throws an `AuthError` of a given `type`, or throws some other
error. -/
inductive SignInResult where
  | success (throwsRedirect : Bool)
  | authFailure (t : String)
  | otherThrow (e : JsError)
deriving DecidableEq

/-- How `authenticate` ended: returned a message string, rethrew an error
(`throw error`), or returned `undefined`. -/
inductive AuthEnd where
  | message (s : String)
  | rethrew (e : JsError)
  | undef
deriving DecidableEq

/-- The `authenticate` action of `src/app/lib/action.ts`; the Bool in the
result records whether a session was established. -/
def authenticate : SignInResult → Bool × AuthEnd
  | .success false => (true, .undef)
  | .success true => (true, .rethrew ⟨none, true⟩)
  | .authFailure t =>
      if t = "CredentialsSignin" then (false, .message "Invalid credentials.")
      else (false, .message "Something went wrong.")
  | .otherThrow e => (false, .rethrew e)

/-- A list-of-characters prefix test, modelling `String.startsWith`. -/
def charsLead : List Char → List Char → Bool
  | [], _ => true
  | _ :: _, [] => false
  | a :: as, b :: bs => a = b && charsLead as bs

/-- The test `s.startsWith p` on the underlying character lists. -/
def strStarts (s p : String) : Bool := charsLead p.data s.data

/-- What the `authorized` callback may answer: `true`, `false`, or
`Response.redirect(url)`. -/
inductive AuthzDecision where
  | allow
  | deny
  | redirectTo (url : String)
deriving DecidableEq

/-- The `authorized` callback of `src/auth.config.ts`.  `authUser` is
`auth?.user` (so `isLoggedIn = !!auth?.user` is `authUser.isSome`),
`pathname` is `nextUrl.pathname`. -/
def authorized (authUser : Option String) (pathname : String) : AuthzDecision :=
  let isLoggedIn := authUser.isSome
  let isOnDashboard := strStarts pathname "/dashboard"
  if isOnDashboard then
    if isLoggedIn then .allow else .deny
  else if isLoggedIn then .redirectTo "/dashboard"
  else .allow

/-- The normalization the spec describes: multiply the validated decimal
amount by 100 and round to the nearest integer minor unit.  (Comparison
definition for the spec wording; the source computes `amount * 100` with no
rounding.) -/
def specAmountCents (a : ℚ) : ℤ := round (a * 100)

/-- Whether an invoice action ended by returning a value (as opposed to
throwing a redirect signal or an exception). -/
def isReturnValue : InvoiceActionEnd → Bool
  | .returned _ _ => true
  | _ => false

/-- Concrete form for the C1 counterexample: a validated amount of 19.999
dollars, whose value times 100 is not an integer number of cents. -/
def c1form : InvoiceForm := ⟨some "cust1", some (19999/1000), some "pending"⟩

/-- Concrete form for C2: valid customer and amount, invalid status. -/
def c2form : InvoiceForm := ⟨some "cust1", some 5, some "bogus"⟩

/-- Concrete form for C5: mismatched six-character passwords together with an
empty name, so the base object parse fails and the refinement never runs. -/
def c5form : RegisterForm := ⟨some "a@b.c", some "", some "abcdef", some "abcdeg"⟩

/-- Concrete form for the C6 witness: every field fails, amount is 0. -/
def c6form : InvoiceForm := ⟨none, some 0, none⟩

/-- The accumulated field errors of `c6form`. -/
def c6errs : InvoiceFieldErrors :=
  ⟨["Please select a customer."], ["Please enter an amount greater than $0."],
   ["Please select an invoice status."]⟩

/-- Concrete valid form for the C9 witness. -/
def c9form : InvoiceForm := ⟨some "cust2", some 7, some "paid"⟩

/-- The parse of `c9form`. -/
def c9v : ValidInvoiceFields := ⟨"cust2", 7, .paid⟩

/-- A one-row invoices table for the C9 witness. -/
def c9db : List InvoiceRow := [⟨"i1", "c1", 100, "pending", "2026-01-01"⟩]

/-- Concrete valid registration form for the C3/C4/C5 witnesses. -/
def regFormOk : RegisterForm := ⟨some "a@b.c", some "Ann", some "secret1", some "secret1"⟩

/-- The parse of `regFormOk`. -/
def regVOk : ValidRegisterFields := ⟨"a@b.c", "Ann", "secret1", "secret1"⟩

/-- A users table already holding the email of `regFormOk`. -/
def usersWithEmail : List UserRow := [⟨"a@b.c", "h0", "Bob"⟩]

/-- Concrete registration form for the C5 (amended) witness: all base field
checks pass, the two passwords differ. -/
def c5formOk : RegisterForm := ⟨some "a@b.c", some "Ann", some "abcdef", some "abcdeg"⟩

/- ------------------------------------------------------------------ -/
/- Theorems.                                                           -/
/- ------------------------------------------------------------------ -/

/-- A positive amount passes the `gt(0)` check. -/
theorem checkAmount_pos (a : ℚ) (ha : 0 < a) : checkAmount (some a) = .ok a := by
  simp [checkAmount, ha]

/-- A failed invoice parse reports exactly the independently accumulated
errors of the three field checks. -/
theorem invoiceSafeParse_error_eq (f : InvoiceForm) (errs : InvoiceFieldErrors)
    (h : invoiceSafeParse f = .error errs) :
    errs = ⟨errsOf (checkCustomerId f.customerId), errsOf (checkAmount f.amount),
            errsOf (checkStatus f.status)⟩ := by
  unfold invoiceSafeParse at h
  rcases hc : checkCustomerId f.customerId with ec | c <;>
    rcases ha : checkAmount f.amount with ea | a <;>
      rcases hs : checkStatus f.status with es | s <;>
        rw [hc, ha, hs] at h <;> simp_all [errsOf]

/-- A successful parse of a form with all three fields present and a positive
amount. -/
theorem invoiceSafeParse_ok (cid : String) (a : ℚ) (ha : 0 < a) (s : String)
    (st : Status) (hs : checkStatus (some s) = .ok st) :
    invoiceSafeParse ⟨some cid, some a, some s⟩ = .ok ⟨cid, a, st⟩ := by
  unfold invoiceSafeParse
  rw [show checkCustomerId (some cid) = .ok cid from rfl, checkAmount_pos a ha, hs]

/-- Claim C1 counterexample: for the validated amount 19.999 (> 0),
`createInvoice` stores `19999/10 = 1999.9` cents — the source computes
`amount * 100` with no rounding — whereas the claimed normalization
`round (a * 100)` gives 2000; the two differ. -/
theorem C1_counterexample :
    (createInvoice "2026-10-12" "inv1" false [] c1form).db =
      [⟨"inv1", "cust1", 19999/10, "pending", "2026-10-12"⟩] ∧
    specAmountCents (19999/1000) = 2000 ∧
    ((19999 : ℚ)/10) ≠ ((2000 : ℤ) : ℚ) := by
  refine ⟨?_, ?_, by norm_num⟩
  · rw [show c1form = ⟨some "cust1", some (19999/1000), some "pending"⟩ from rfl,
      createInvoice, invoiceSafeParse_ok "cust1" (19999/1000) (by norm_num) "pending" .pending rfl]
    norm_num [statusStr]
  · rw [specAmountCents, round_eq]
    norm_num [Int.floor_eq_iff]

/-- Claim C1 (amended): for every validated invoice amount a > 0, the stored
amount equals a * 100 exactly (no rounding is applied), in both
`createInvoice` and `updateInvoice`; in particular 19.99 * 100 = 1999 and
1999 / 100 = 19.99. -/
theorem C1_amount_times_100 (a : ℚ) (ha : 0 < a) (cid newId today uid : String)
    (db : List InvoiceRow) :
    (createInvoice today newId false db ⟨some cid, some a, some "pending"⟩).db =
      db ++ [⟨newId, cid, a * 100, "pending", today⟩] ∧
    (updateInvoice false db uid ⟨some cid, some a, some "paid"⟩).db =
      db.map (fun r => if r.id = uid then
        { r with customer_id := cid, amount := a * 100, status := "paid" } else r) ∧
    (19.99 : ℚ) * 100 = 1999 ∧ ((1999 : ℚ)) / 100 = 19.99 := by
  refine ⟨?_, ?_, by norm_num, by norm_num⟩
  · rw [createInvoice, invoiceSafeParse_ok cid a ha "pending" .pending rfl]
    simp [statusStr]
  · rw [updateInvoice, invoiceSafeParse_ok cid a ha "paid" .paid rfl]
    simp [statusStr]

/-- Witness for C1 (amended) at a = 19.99. -/
theorem C1_amount_times_100_witness :
    (0 : ℚ) < 19.99 ∧
    ((createInvoice "2026-10-12" "inv1" false [] ⟨some "cust1", some 19.99, some "pending"⟩).db =
      [] ++ [⟨"inv1", "cust1", (19.99 : ℚ) * 100, "pending", "2026-10-12"⟩] ∧
    (updateInvoice false [] "u1" ⟨some "cust1", some 19.99, some "paid"⟩).db =
      ([] : List InvoiceRow).map (fun r => if r.id = "u1" then
        { r with customer_id := "cust1", amount := (19.99 : ℚ) * 100, status := "paid" } else r) ∧
    (19.99 : ℚ) * 100 = 1999 ∧ ((1999 : ℚ)) / 100 = 19.99) :=
  ⟨by norm_num, C1_amount_times_100 19.99 (by norm_num) "cust1" "inv1" "2026-10-12" "u1" []⟩

/-- Claim C2 counterexample: on a form whose status is neither "pending" nor
"paid", `updateInvoice` throws the validation error out of the action (the
source uses the throwing `parse`, not `safeParse`) instead of returning an
ActionResult error value; it performs no update, no cache invalidation and no
navigation. -/
theorem C2_counterexample :
    updateInvoice false [] "inv1" c2form =
      ⟨[], [], .threw ⟨[], [], ["Please select an invoice status."]⟩⟩ ∧
    isReturnValue (updateInvoice false [] "inv1" c2form).outcome = false := by
  constructor <;> decide

/-- Claim C2 (amended): for every `updateInvoice` invocation whose form fields
fail invoice-schema validation, the action throws the validation error past
the action (it does not return an ActionResult error value), and performs no
update statement, no cache invalidation and no navigation. -/
theorem C2_update_validation_throws (updateFails : Bool) (db : List InvoiceRow)
    (id : String) (f : InvoiceForm) (errs : InvoiceFieldErrors)
    (h : invoiceSafeParse f = .error errs) :
    updateInvoice updateFails db id f = ⟨db, [], .threw errs⟩ := by
  simp [updateInvoice, h]

/-- Witness for C2 (amended) at a concrete invalid form. -/
theorem C2_update_validation_throws_witness :
    invoiceSafeParse c2form = .error ⟨[], [], ["Please select an invoice status."]⟩ ∧
    updateInvoice true [] "inv1" c2form =
      ⟨[], [], .threw ⟨[], [], ["Please select an invoice status."]⟩⟩ :=
  ⟨by decide, C2_update_validation_throws true [] "inv1" c2form
    ⟨[], [], ["Please select an invoice status."]⟩ (by decide)⟩

/-- Claim C6: a `createInvoice` submission with any invalid field returns the
accumulated errors of all failing fields together (each field is checked
independently), with amount ≤ 0 carrying the amount message; the table is
unchanged, nothing is revalidated and no navigation happens. -/
theorem C6_createInvoice_validation (today newId : String) (insertFails : Bool)
    (db : List InvoiceRow) (f : InvoiceForm) (errs : InvoiceFieldErrors)
    (h : invoiceSafeParse f = .error errs) :
    createInvoice today newId insertFails db f =
      ⟨db, [], .returned (some errs) (some "Missing Fields. Failed to Create Invoice.")⟩ ∧
    errs = ⟨errsOf (checkCustomerId f.customerId), errsOf (checkAmount f.amount),
            errsOf (checkStatus f.status)⟩ ∧
    (∀ a : ℚ, f.amount = some a → a ≤ 0 →
      errs.amount = ["Please enter an amount greater than $0."]) := by
  refine ⟨by simp [createInvoice, h], invoiceSafeParse_error_eq f errs h, ?_⟩
  intro a hfa hle
  rw [invoiceSafeParse_error_eq f errs h]
  simp [checkAmount, hfa, errsOf, not_lt.mpr hle]

/-- Witness for C6 at a form where all three fields fail and amount = 0. -/
theorem C6_createInvoice_validation_witness :
    invoiceSafeParse c6form = .error c6errs ∧
    (createInvoice "2026-10-12" "inv1" false [] c6form =
      ⟨[], [], .returned (some c6errs) (some "Missing Fields. Failed to Create Invoice.")⟩ ∧
    c6errs = ⟨errsOf (checkCustomerId c6form.customerId), errsOf (checkAmount c6form.amount),
              errsOf (checkStatus c6form.status)⟩ ∧
    (∀ a : ℚ, c6form.amount = some a → a ≤ 0 →
      c6errs.amount = ["Please enter an amount greater than $0."])) :=
  ⟨by decide, C6_createInvoice_validation "2026-10-12" "inv1" false [] c6form c6errs (by decide)⟩

/-- Claim C8: on a failing DELETE, `deleteInvoice` returns exactly the delete
database-error message, leaves every row unchanged and revalidates nothing; on
success it removes the matching rows, revalidates the invoices path and
returns the success message; it never navigates. -/
theorem C8_deleteInvoice (id : String) (db : List InvoiceRow) :
    deleteInvoice true db id =
      ⟨db, [], .returned none (some "Database Error: Failed to Delete Invoice.")⟩ ∧
    deleteInvoice false db id =
      ⟨db.filter (fun r => r.id ≠ id), ["/dashboard/invoices"],
       .returned none (some "Deleted Invoice.")⟩ := by
  constructor <;> simp [deleteInvoice]

/-- Claim C9: a successful `updateInvoice` maps the table pointwise by a
function that leaves every row with a different id unchanged and preserves the
id and date columns of every row (only customer_id, amount and status can
change). -/
theorem C9_updateInvoice_frame (db : List InvoiceRow) (uid : String) (f : InvoiceForm)
    (v : ValidInvoiceFields) (hv : invoiceSafeParse f = .ok v) :
    ∃ g : InvoiceRow → InvoiceRow,
      updateInvoice false db uid f =
        ⟨db.map g, ["/dashboard/invoices"], .redirected "/dashboard/invoices"⟩ ∧
      (∀ r : InvoiceRow, r.id ≠ uid → g r = r) ∧
      (∀ r : InvoiceRow, (g r).id = r.id ∧ (g r).date = r.date) := by
  refine ⟨fun r => if r.id = uid then
      { r with customer_id := v.customerId, amount := v.amount * 100,
               status := statusStr v.status } else r, ?_, ?_, ?_⟩
  · simp [updateInvoice, hv]
  · intro r hr
    simp [hr]
  · intro r
    by_cases hr : r.id = uid <;> simp [hr]

/-- Witness for C9 at a concrete valid form and one-row table. -/
theorem C9_updateInvoice_frame_witness :
    invoiceSafeParse c9form = .ok c9v ∧
    (∃ g : InvoiceRow → InvoiceRow,
      updateInvoice false c9db "i1" c9form =
        ⟨c9db.map g, ["/dashboard/invoices"], .redirected "/dashboard/invoices"⟩ ∧
      (∀ r : InvoiceRow, r.id ≠ "i1" → g r = r) ∧
      (∀ r : InvoiceRow, (g r).id = r.id ∧ (g r).date = r.date)) :=
  ⟨by decide, C9_updateInvoice_frame c9db "i1" c9form c9v (by decide)⟩

/-- Claim C3: when the fields validate and the users table already holds the
submitted email, the INSERT throws the unique-violation error (code 23505),
`register` returns exactly the "already exists" message — distinct from the
generic failure message — and the table is unchanged (no duplicate row). -/
theorem C3_register_duplicate_email (emailValid : String → Bool) (hash : String → String)
    (signInThrows : Option JsError) (db : List UserRow) (f : RegisterForm)
    (v : ValidRegisterFields) (hv : fullRegisterSafeParse emailValid f = .ok v)
    (hdup : db.any (fun r => r.email = v.email) = true) :
    register emailValid hash none signInThrows db f =
      (db, .value none (some "Email already exists. Please sign in.")) ∧
    ("Email already exists. Please sign in." : String) ≠
      "Something went wrong, please try again." := by
  refine ⟨?_, by decide⟩
  simp [register, hv, createUser, hdup, registerCatch]

/-- Witness for C3 at a concrete duplicate email. -/
theorem C3_register_duplicate_email_witness :
    fullRegisterSafeParse (fun _ => true) regFormOk = .ok regVOk ∧
    usersWithEmail.any (fun r => r.email = regVOk.email) = true ∧
    (register (fun _ => true) (fun s => s) none none usersWithEmail regFormOk =
      (usersWithEmail, .value none (some "Email already exists. Please sign in.")) ∧
    ("Email already exists. Please sign in." : String) ≠
      "Something went wrong, please try again.") :=
  ⟨by decide, by decide,
   C3_register_duplicate_email (fun _ => true) (fun s => s) none usersWithEmail regFormOk
     regVOk (by decide) (by decide)⟩

/-- Claim C4: when the fields validate, the email is fresh (insert succeeds)
and the subsequent sign-in throws a navigation signal, `register` ends by
throwing a redirect to /dashboard — the new row stays inserted and the generic
failure message is not returned. -/
theorem C4_register_redirect (emailValid : String → Bool) (hash : String → String)
    (db : List UserRow) (f : RegisterForm) (v : ValidRegisterFields) (e : JsError)
    (hv : fullRegisterSafeParse emailValid f = .ok v)
    (hnew : db.any (fun r => r.email = v.email) = false)
    (hcode : e.code = none) (hredir : e.redirectSignal = true) :
    register emailValid hash none (some e) db f =
      (db ++ [⟨v.email, hash v.password, v.name⟩], .redirected "/dashboard") := by
  simp [register, hv, createUser, hnew, registerCatch, hcode, hredir]

/-- Witness for C4 at a concrete fresh registration whose sign-in throws the
redirect signal. -/
theorem C4_register_redirect_witness :
    fullRegisterSafeParse (fun _ => true) regFormOk = .ok regVOk ∧
    ([] : List UserRow).any (fun r => r.email = regVOk.email) = false ∧
    (JsError.mk none true).code = none ∧
    (JsError.mk none true).redirectSignal = true ∧
    register (fun _ => true) (fun s => s) none (some ⟨none, true⟩) [] regFormOk =
      ([] ++ [⟨regVOk.email, (fun s => s) regVOk.password, regVOk.name⟩],
       .redirected "/dashboard") :=
  ⟨by decide, by decide, by decide, by decide,
   C4_register_redirect (fun _ => true) (fun s => s) [] regFormOk regVOk ⟨none, true⟩
     (by decide) (by decide) (by decide) (by decide)⟩

/-- Claim C5 counterexample: on a submission whose passwords are each six
characters long but differ, with an empty name, the base object parse fails,
the refinement is skipped, and the returned errors carry an empty
confirmPassword list — while no row is inserted. -/
theorem C5_counterexample :
    6 ≤ ("abcdef" : String).length ∧ 6 ≤ ("abcdeg" : String).length ∧
    ("abcdef" : String) ≠ "abcdeg" ∧
    register (fun _ => true) (fun s => s) none none [] c5form =
      ([], .value (some ⟨[], ["String must contain at least 1 character(s)"], [], []⟩)
        (some "Missing Fields. Failed to Create User, please try again.")) := by
  refine ⟨by decide, by decide, by decide, by decide⟩

/-- Claim C5 (amended): when every base field check passes (well-formed email,
non-empty name, both password fields present with at least 6 characters) and
the two passwords differ, `register` returns errors whose confirmPassword
entry is exactly the mismatch message (attached to that field) and no row is
inserted. -/
theorem C5_password_mismatch (emailValid : String → Bool) (hash : String → String)
    (storeError signInThrows : Option JsError) (db : List UserRow) (f : RegisterForm)
    (e n p c : String)
    (he : checkEmail emailValid f.email = .ok e) (hn : checkName f.name = .ok n)
    (hp : checkPassword f.password = .ok p) (hc : checkPassword f.confirmPassword = .ok c)
    (hne : c ≠ p) :
    register emailValid hash storeError signInThrows db f =
      (db, .value (some ⟨[], [], [], ["Password does not match"]⟩)
        (some "Missing Fields. Failed to Create User, please try again.")) := by
  simp [register, fullRegisterSafeParse, he, hn, hp, hc, hne]

/-- Witness for C5 (amended) at a concrete mismatching submission. -/
theorem C5_password_mismatch_witness :
    checkEmail (fun _ => true) c5formOk.email = .ok "a@b.c" ∧
    checkName c5formOk.name = .ok "Ann" ∧
    checkPassword c5formOk.password = .ok "abcdef" ∧
    checkPassword c5formOk.confirmPassword = .ok "abcdeg" ∧
    ("abcdeg" : String) ≠ "abcdef" ∧
    register (fun _ => true) (fun s => s) none none [] c5formOk =
      ([], .value (some ⟨[], [], [], ["Password does not match"]⟩)
        (some "Missing Fields. Failed to Create User, please try again.")) :=
  ⟨by decide, by decide, by decide, by decide, by decide,
   C5_password_mismatch (fun _ => true) (fun s => s) none none [] c5formOk
     "a@b.c" "Ann" "abcdef" "abcdeg" (by decide) (by decide) (by decide) (by decide) (by decide)⟩

/-- Claim C7: a failed sign-in attempt (an AuthError) establishes no session
and returns "Invalid credentials." exactly when the failure type is
CredentialsSignin and "Something went wrong." otherwise; the two messages
differ, and the action does not end with the success marker. -/
theorem C7_authenticate_failures (t : String) :
    (authenticate (.authFailure t)).1 = false ∧
    authenticate (.authFailure t) =
      (false, .message (if t = "CredentialsSignin" then "Invalid credentials."
                        else "Something went wrong.")) ∧
    ("Invalid credentials." : String) ≠ "Something went wrong." ∧
    (authenticate (.authFailure t)).2 ≠ .undef := by
  by_cases h : t = "CredentialsSignin" <;> simp [authenticate, h]

/-- Witness for C7 at the CredentialsSignin failure type. -/
theorem C7_authenticate_failures_witness :
    (authenticate (.authFailure "CredentialsSignin")).1 = false ∧
    authenticate (.authFailure "CredentialsSignin") =
      (false, .message (if "CredentialsSignin" = "CredentialsSignin" then "Invalid credentials."
                        else "Something went wrong.")) ∧
    ("Invalid credentials." : String) ≠ "Something went wrong." ∧
    (authenticate (.authFailure "CredentialsSignin")).2 ≠ .undef :=
  C7_authenticate_failures "CredentialsSignin"

/-- Witness for C8 at a concrete id and one-row table. -/
theorem C8_deleteInvoice_witness :
    deleteInvoice true c9db "i1" =
      ⟨c9db, [], .returned none (some "Database Error: Failed to Delete Invoice.")⟩ ∧
    deleteInvoice false c9db "i1" =
      ⟨c9db.filter (fun r => r.id ≠ "i1"), ["/dashboard/invoices"],
       .returned none (some "Deleted Invoice.")⟩ :=
  C8_deleteInvoice "i1" c9db

/-- Claim C10: the `authorized` callback allows a dashboard path exactly when
the session holds a user, denies a dashboard path to an unauthenticated
request, and answers a logged-in request for a non-dashboard path with a
redirect to /dashboard. -/
theorem C10_authorized (authUser : Option String) (pathname : String) :
    (strStarts pathname "/dashboard" = true →
      (authorized authUser pathname = .allow ↔ authUser.isSome = true)) ∧
    (strStarts pathname "/dashboard" = true → authUser.isSome = false →
      authorized authUser pathname = .deny) ∧
    (strStarts pathname "/dashboard" = false → authUser.isSome = true →
      authorized authUser pathname = .redirectTo "/dashboard") := by
  rcases authUser with _ | u <;>
    by_cases h : strStarts pathname "/dashboard" <;>
      simp [authorized, h]

/-- Witness for C10 at concrete requests. -/
theorem C10_authorized_witness :
    authorized (some "u") "/dashboard/customers" = .allow ∧
    authorized none "/dashboard/customers" = .deny ∧
    authorized (some "u") "/login" = .redirectTo "/dashboard" :=
  ⟨((C10_authorized (some "u") "/dashboard/customers").1 (by decide)).mpr (by decide),
   (C10_authorized none "/dashboard/customers").2.1 (by decide) (by decide),
   (C10_authorized (some "u") "/login").2.2 (by decide) (by decide)⟩

